import Mathlib

/-!
Verification development for the ICSProject repository: a shallow embedding
of `MailHandler.py` and `app.py` (an IMAP/SMTP calendar-invite utility),
together with theorems settling the specification claims.

Modelling conventions:
* An IMAP session that answers every request with status OK is modelled by
  the list of messages currently in the inbox; a parsed RFC822 message
  (the result of `email.message_from_bytes`) is modelled by the tree `Msg`.
* The environment is a partial map `String → Option String`
  (`os.environ.get`), the file system a partial map from names to contents.
* Wall-clock readings (`datetime.now()`) are explicit `DateTime` arguments;
  the code calls `datetime.now()` twice in `create_ics_file`, so the
  embedding takes two readings.
-/

namespace ICS

/-- A parsed MIME message or message part, as produced by Python
`email.message_from_bytes`: a top-level content type, the stored value of
the Subject header, and the list of sub-parts (empty for a non-multipart
part). -/
inductive Msg : Type where
  | node (contentType : String) (subject : String) (parts : List Msg)
deriving Repr

def Msg.contentType : Msg → String
  | .node ct _ _ => ct

def Msg.subject : Msg → String
  | .node _ s _ => s

def Msg.parts : Msg → List Msg
  | .node _ _ ps => ps

mutual
/-- Python `Message.walk()`: a depth-first traversal that yields the part
itself first, then walks each sub-part in order. -/
def Msg.walk : Msg → List Msg
  | .node ct s ps => .node ct s ps :: walkList ps

def walkList : List Msg → List Msg
  | [] => []
  | m :: ms => m.walk ++ walkList ms
end

/-- The classification performed by the loop body of
`MailHandler.fetch_calendar_responses` (src/MailHandler.py lines 84-90):
the subject is recorded when the top-level content type is text/calendar,
or, failing that, when some part of the depth-first walk has content type
text/calendar (the inner for loop with break records it once). -/
def qualifies (m : Msg) : Bool :=
  if m.contentType == "text/calendar" then
    true
  else
    m.walk.any (fun part => part.contentType == "text/calendar")

/-- `MailHandler.fetch_calendar_responses` (src/MailHandler.py lines 56-92)
on an inbox whose search and fetch operations all succeed: for each message
in server enumeration order, append its subject when it qualifies. -/
def fetchCalendarResponses : List Msg → List String
  | [] => []
  | m :: rest =>
    if m.contentType == "text/calendar" then
      m.subject :: fetchCalendarResponses rest
    else if m.walk.any (fun part => part.contentType == "text/calendar") then
      m.subject :: fetchCalendarResponses rest
    else
      fetchCalendarResponses rest

/-- The scan result is exactly the subjects of the qualifying messages, in
enumeration order. -/
theorem fetchCalendarResponses_eq_filter (inbox : List Msg) :
    fetchCalendarResponses inbox = (inbox.filter qualifies).map Msg.subject := by
  induction inbox with
  | nil => rfl
  | cons m rest ih =>
    by_cases htop : m.contentType == "text/calendar"
    · simp [fetchCalendarResponses, qualifies, htop, ih]
    · by_cases hwalk : m.walk.any (fun part => part.contentType == "text/calendar")
      · simp [fetchCalendarResponses, qualifies, htop, hwalk, ih]
      · simp [fetchCalendarResponses, qualifies, htop, hwalk, ih]

theorem qualifies_of_top (m : Msg) (h : m.contentType = "text/calendar") :
    qualifies m = true := by
  simp [qualifies, h]

theorem qualifies_of_walk (m : Msg) (p : Msg) (hp : p ∈ m.walk)
    (h : p.contentType = "text/calendar") : qualifies m = true := by
  unfold qualifies
  split
  · rfl
  · rw [List.any_eq_true]
    refine ⟨p, hp, ?_⟩
    simp [h]

theorem subject_mem_of_qualifies (inbox : List Msg) (m : Msg) (hm : m ∈ inbox)
    (hq : qualifies m = true) : m.subject ∈ fetchCalendarResponses inbox := by
  rw [fetchCalendarResponses_eq_filter]
  exact List.mem_map_of_mem Msg.subject (List.mem_filter.mpr ⟨hm, hq⟩)

/-- Claim C1: every message in the scanned inbox whose top-level MIME content
type is text/calendar has its Subject header included in the list returned by
`fetch_calendar_responses`. -/
theorem top_level_calendar_subject_included
    (inbox : List Msg) (m : Msg) (hm : m ∈ inbox)
    (hct : m.contentType = "text/calendar") :
    m.subject ∈ fetchCalendarResponses inbox :=
  subject_mem_of_qualifies inbox m hm (qualifies_of_top m hct)

/-- Witness for C1 at a concrete inbox with one top-level text/calendar
message. -/
theorem top_level_calendar_subject_included_witness :
    (Msg.node "text/calendar" "Invite reply" []).contentType = "text/calendar"
    ∧ (Msg.node "text/calendar" "Invite reply" []).subject ∈
        fetchCalendarResponses
          [Msg.node "text/plain" "Hello" [], Msg.node "text/calendar" "Invite reply" []] :=
  ⟨rfl, top_level_calendar_subject_included
    [Msg.node "text/plain" "Hello" [], Msg.node "text/calendar" "Invite reply" []]
    (Msg.node "text/calendar" "Invite reply" [])
    (List.Mem.tail _ (List.Mem.head _)) rfl⟩

/-- Claim C2: a message whose top-level type is not text/calendar but some
part of its depth-first walk has content type text/calendar also has its
subject included in the list returned by `fetch_calendar_responses`. -/
theorem nested_calendar_subject_included
    (inbox : List Msg) (m : Msg) (hm : m ∈ inbox)
    (_hct : m.contentType ≠ "text/calendar")
    (p : Msg) (hp : p ∈ m.walk) (hpct : p.contentType = "text/calendar") :
    m.subject ∈ fetchCalendarResponses inbox :=
  subject_mem_of_qualifies inbox m hm (qualifies_of_walk m p hp hpct)

/-- Witness for C2 at a concrete inbox with one multipart message holding a
nested text/calendar part. -/
theorem nested_calendar_subject_included_witness :
    (Msg.node "multipart/mixed" "Nested invite" [Msg.node "text/calendar" "" []]).contentType
        ≠ "text/calendar"
    ∧ Msg.node "text/calendar" "" [] ∈
        (Msg.node "multipart/mixed" "Nested invite" [Msg.node "text/calendar" "" []]).walk
    ∧ (Msg.node "multipart/mixed" "Nested invite" [Msg.node "text/calendar" "" []]).subject ∈
        fetchCalendarResponses
          [Msg.node "multipart/mixed" "Nested invite" [Msg.node "text/calendar" "" []]] :=
  ⟨by decide, by simp [Msg.walk, walkList],
    nested_calendar_subject_included
      [Msg.node "multipart/mixed" "Nested invite" [Msg.node "text/calendar" "" []]]
      (Msg.node "multipart/mixed" "Nested invite" [Msg.node "text/calendar" "" []])
      (List.Mem.head _) (by decide)
      (Msg.node "text/calendar" "" [])
      (by simp [Msg.walk, walkList]) rfl⟩

/-- Counterexample to claim C3 as stated: the subject of a message with no
calendar content anywhere can still appear in the scan result when a
different, qualifying message bears the same subject string. Here the
text/plain message with subject "Status" has no calendar content, yet
"Status" is in the result because the first message is a calendar object. -/
theorem no_calendar_subject_absent_counterexample :
    (Msg.node "text/plain" "Status" []).contentType ≠ "text/calendar"
    ∧ (∀ p ∈ (Msg.node "text/plain" "Status" []).walk, p.contentType ≠ "text/calendar")
    ∧ (Msg.node "text/plain" "Status" []).subject ∈
        fetchCalendarResponses
          [Msg.node "text/calendar" "Status" [], Msg.node "text/plain" "Status" []] :=
  ⟨by decide, by decide, by decide⟩

/-- Claim C3 amended: a message with no calendar content anywhere contributes
no entry, so its subject is absent from the scan result provided no
qualifying message in the inbox bears the same subject string. -/
theorem no_calendar_subject_absent
    (inbox : List Msg) (m : Msg) (_hm : m ∈ inbox)
    (_hct : m.contentType ≠ "text/calendar")
    (_hwalk : ∀ p ∈ m.walk, p.contentType ≠ "text/calendar")
    (hsub : ∀ m2 ∈ inbox, qualifies m2 = true → m2.subject ≠ m.subject) :
    m.subject ∉ fetchCalendarResponses inbox := by
  rw [fetchCalendarResponses_eq_filter]
  intro hmem
  rcases List.mem_map.mp hmem with ⟨m2, hm2, hsubeq⟩
  rcases List.mem_filter.mp hm2 with ⟨hm2mem, hm2q⟩
  exact hsub m2 hm2mem hm2q hsubeq

/-- Witness for amended C3 at a concrete inbox: the inbox holds one calendar
message with subject "Invite" and one plain message with subject "Hello";
"Hello" is absent from the result. -/
theorem no_calendar_subject_absent_witness :
    (Msg.node "text/plain" "Hello" []).contentType ≠ "text/calendar"
    ∧ (Msg.node "text/plain" "Hello" []).subject ∉
        fetchCalendarResponses
          [Msg.node "text/calendar" "Invite" [], Msg.node "text/plain" "Hello" []] :=
  ⟨by decide,
    no_calendar_subject_absent
      [Msg.node "text/calendar" "Invite" [], Msg.node "text/plain" "Hello" []]
      (Msg.node "text/plain" "Hello" [])
      (List.Mem.tail _ (List.Mem.head _)) (by decide)
      (by decide) (by decide)⟩

/-! ## Credentials and startup (C4) -/

/-- Python truthiness of `os.environ.get` results: `None` and the empty
string are falsy, any non-empty string is truthy. -/
def truthy : Option String → Bool
  | none => false
  | some s => !(s == "")

/-- The state built by `MailHandler.load_env_vars`
(src/MailHandler.py lines 24-28). -/
structure Handler where
  userEmail : Option String
  userPassword : Option String

/-- `MailHandler.load_env_vars`: read EMAIL and PASSWORD from the process
environment. -/
def loadEnvVars (env : String → Option String) : Handler :=
  ⟨env "EMAIL", env "PASSWORD"⟩

/-- `MailHandler.__init__` (src/MailHandler.py lines 16-22): load the
environment variables, then raise ValueError when either is falsy. -/
def mailHandlerInit (env : String → Option String) : Except String Handler :=
  let h := loadEnvVars env
  if !(truthy h.userEmail) || !(truthy h.userPassword) then
    Except.error "Email or password environment variables not set."
  else
    Except.ok h

/-- The network operations the program can perform. -/
inductive NetOp : Type where
  | imapConnect | imapLogin | imapSelect | imapSearch | imapFetch | imapLogout
  | smtpConnect | smtpLogin | smtpSend | smtpQuit
deriving Repr, DecidableEq

/-- The sequence of network operations performed by `main` in src/app.py
(lines 159-203): the credential check at lines 163-165 returns before any
connection is made; otherwise the run connects over IMAP, searches, fetches
each message, logs out, connects over SMTP, sends, and quits. -/
def mainNetOps (env : String → Option String) (inboxSize : Nat) : List NetOp :=
  if !(truthy (env "EMAIL")) || !(truthy (env "PASSWORD")) then
    []
  else
    [NetOp.imapConnect, NetOp.imapLogin, NetOp.imapSelect, NetOp.imapSearch]
      ++ List.replicate (min inboxSize 10) NetOp.imapFetch
      ++ [NetOp.imapLogout, NetOp.smtpConnect, NetOp.smtpLogin,
          NetOp.smtpSend, NetOp.smtpQuit]

/-- Claim C4: when the mailbox-address or secret environment variable is
missing or empty, `MailHandler.__init__` raises and `main` in app.py
returns, before any network operation is attempted. -/
theorem missing_credentials_halt
    (env : String → Option String) (inboxSize : Nat)
    (h : env "EMAIL" = none ∨ env "EMAIL" = some ""
      ∨ env "PASSWORD" = none ∨ env "PASSWORD" = some "") :
    (∃ e, mailHandlerInit env = Except.error e) ∧ mainNetOps env inboxSize = [] := by
  have hfalsy : (!(truthy (env "EMAIL")) || !(truthy (env "PASSWORD"))) = true := by
    rcases h with h | h | h | h <;> simp [truthy, h]
  refine ⟨⟨"Email or password environment variables not set.", ?_⟩, ?_⟩
  · simp only [mailHandlerInit, loadEnvVars]
    rw [hfalsy]
    simp
  · simp only [mainNetOps]
    rw [hfalsy]
    simp

/-- Witness for C4 at the empty environment. -/
theorem missing_credentials_halt_witness :
    ((fun _ => none : String → Option String) "EMAIL" = none)
    ∧ (∃ e, mailHandlerInit (fun _ => none) = Except.error e)
    ∧ mainNetOps (fun _ => none) 5 = [] :=
  ⟨rfl,
    (missing_credentials_halt (fun _ => none) 5 (Or.inl rfl)).1,
    (missing_credentials_halt (fun _ => none) 5 (Or.inl rfl)).2⟩

/-- Claim C10: each message contributes at most one entry — the result lists
exactly one subject per qualifying message, so its length never exceeds the
number of messages enumerated. -/
theorem scan_length_le_inbox_length (inbox : List Msg) :
    (fetchCalendarResponses inbox).length = (inbox.filter qualifies).length
    ∧ (fetchCalendarResponses inbox).length ≤ inbox.length := by
  constructor
  · rw [fetchCalendarResponses_eq_filter, List.length_map]
  · rw [fetchCalendarResponses_eq_filter, List.length_map]
    exact List.length_filter_le qualifies inbox

/-! ## Invite builder (C5, C6, C7) -/

/-- A wall-clock reading at the resolution the code serializes (strftime in
`create_ics_file` prints nothing finer than seconds). Python datetime years
lie in 1..9999, so four digits always render the year. -/
structure DateTime where
  year : Nat
  month : Nat
  day : Nat
  hour : Nat
  minute : Nat
  second : Nat
deriving Repr, DecidableEq

/-- Two-digit zero-padded decimal rendering, as strftime does for the
month, day, hour, minute and second fields. -/
def pad2 (n : Nat) : List Char :=
  [Nat.digitChar (n / 10 % 10), Nat.digitChar (n % 10)]

/-- Four-digit zero-padded decimal rendering, as strftime does for the
year field. -/
def pad4 (n : Nat) : List Char :=
  [Nat.digitChar (n / 1000 % 10), Nat.digitChar (n / 100 % 10),
   Nat.digitChar (n / 10 % 10), Nat.digitChar (n % 10)]

/-- strftime with format `%Y%m%dT%H%M%S`, used for the UID, DTSTART and
DTEND values in `create_ics_file` (src/MailHandler.py lines 144, 146, 147). -/
def fmtTimestampBasic (d : DateTime) : String :=
  String.mk (pad4 d.year ++ pad2 d.month ++ pad2 d.day ++ ['T']
    ++ pad2 d.hour ++ pad2 d.minute ++ pad2 d.second)

/-- strftime with format `%Y%m%dT%H%M%SZ`, used for the DTSTAMP value in
`create_ics_file` (src/MailHandler.py line 145): the same rendering followed
by a literal Z. -/
def fmtTimestampZ (d : DateTime) : String :=
  fmtTimestampBasic d ++ "Z"

/-- The event arguments of `MailHandler.create_ics_file`
(src/MailHandler.py lines 117-125). -/
structure IcsEvent where
  eventName : String
  startTime : DateTime
  endTime : DateTime
  description : String
  location : String
  attendeeEmail : String

/-- The lines of the f-string template of `MailHandler.create_ics_file`
(src/MailHandler.py lines 139-154). The code reads the clock twice, once
for UID and once for DTSTAMP, so the embedding takes both readings. -/
def icsContentLines (userEmail : String) (e : IcsEvent)
    (nowUid nowStamp : DateTime) : List String :=
  [ "BEGIN:VCALENDAR",
    "VERSION:2.0",
    "PRODID:-//Your Organization//Your Product//EN",
    "METHOD:REQUEST",
    "BEGIN:VEVENT",
    "UID:" ++ fmtTimestampBasic nowUid ++ "@yourdomain.com",
    "DTSTAMP:" ++ fmtTimestampZ nowStamp,
    "DTSTART:" ++ fmtTimestampBasic e.startTime,
    "DTEND:" ++ fmtTimestampBasic e.endTime,
    "SUMMARY:" ++ e.eventName,
    "DESCRIPTION:" ++ e.description,
    "LOCATION:" ++ e.location,
    "ORGANIZER;CN=Organizer:MAILTO:" ++ userEmail,
    "ATTENDEE;RSVP=TRUE;CN=Attendee;PARTSTAT=NEEDS-ACTION:MAILTO:" ++ e.attendeeEmail,
    "END:VEVENT",
    "END:VCALENDAR" ]

/-- The full text rendered by `MailHandler.create_ics_file`: the template
lines joined by newlines, exactly the multi-line f-string of the source. -/
def icsContent (userEmail : String) (e : IcsEvent)
    (nowUid nowStamp : DateTime) : String :=
  String.intercalate "\n" (icsContentLines userEmail e nowUid nowStamp)

/-- Python `event_name.replace` applied to the single-character pattern
space with replacement underscore (src/MailHandler.py line 156): with a
one-character pattern this is a per-character substitution. -/
def replaceSpaces (s : String) : String :=
  String.mk (s.data.map (fun c => if c = ' ' then '_' else c))

/-- The file system visible to the program: a partial map from file names
to textual contents. -/
def Fs : Type := String → Option String

/-- Python `open(name, "w")` followed by a full write: creates or silently
truncates and overwrites the named file. -/
def writeFile (fs : Fs) (name content : String) : Fs :=
  fun n => if n = name then some content else fs n

/-- `MailHandler.create_ics_file` (src/MailHandler.py lines 117-160):
render the template, write it to the file named after the event, and
return that filename. -/
def createIcsFile (userEmail : String) (e : IcsEvent)
    (nowUid nowStamp : DateTime) (fs : Fs) : String × Fs :=
  let content := icsContent userEmail e nowUid nowStamp
  let filename := replaceSpaces e.eventName ++ ".ics"
  (filename, writeFile fs filename content)

/-- Claim C5: two runs of `create_ics_file` on identical event arguments
but different clock readings produce line lists of the same length that
agree at every index other than 5 (the UID line) and 6 (the DTSTAMP line);
every other line matches byte-for-byte. -/
theorem ics_differs_only_in_uid_dtstamp
    (userEmail : String) (e : IcsEvent) (n1 n2 n1' n2' : DateTime)
    (i : Nat) (h5 : i ≠ 5) (h6 : i ≠ 6) :
    (icsContentLines userEmail e n1 n2).length
        = (icsContentLines userEmail e n1' n2').length
    ∧ (icsContentLines userEmail e n1 n2).getD i ""
        = (icsContentLines userEmail e n1' n2').getD i "" := by
  refine ⟨rfl, ?_⟩
  match i, h5, h6 with
  | 0, _, _ => rfl
  | 1, _, _ => rfl
  | 2, _, _ => rfl
  | 3, _, _ => rfl
  | 4, _, _ => rfl
  | 5, h, _ => exact absurd rfl h
  | 6, _, h => exact absurd rfl h
  | 7, _, _ => rfl
  | 8, _, _ => rfl
  | 9, _, _ => rfl
  | 10, _, _ => rfl
  | 11, _, _ => rfl
  | 12, _, _ => rfl
  | 13, _, _ => rfl
  | 14, _, _ => rfl
  | 15, _, _ => rfl
  | n + 16, _, _ => rfl

/-- Witness for C5: two concrete runs a day apart agree on the SUMMARY
line (index 9). -/
theorem ics_differs_only_in_uid_dtstamp_witness :
    (9 : Nat) ≠ 5 ∧ (9 : Nat) ≠ 6
    ∧ (icsContentLines "org@example.com"
          ⟨"Standup", ⟨2021, 1, 2, 9, 0, 0⟩, ⟨2021, 1, 2, 9, 30, 0⟩,
            "Daily sync", "Office", "a@example.com"⟩
          ⟨2021, 1, 1, 8, 0, 0⟩ ⟨2021, 1, 1, 8, 0, 1⟩).getD 9 ""
      = (icsContentLines "org@example.com"
          ⟨"Standup", ⟨2021, 1, 2, 9, 0, 0⟩, ⟨2021, 1, 2, 9, 30, 0⟩,
            "Daily sync", "Office", "a@example.com"⟩
          ⟨2021, 1, 2, 8, 0, 0⟩ ⟨2021, 1, 2, 8, 0, 1⟩).getD 9 "" :=
  ⟨by decide, by decide,
    (ics_differs_only_in_uid_dtstamp "org@example.com"
      ⟨"Standup", ⟨2021, 1, 2, 9, 0, 0⟩, ⟨2021, 1, 2, 9, 30, 0⟩,
        "Daily sync", "Office", "a@example.com"⟩
      ⟨2021, 1, 1, 8, 0, 0⟩ ⟨2021, 1, 1, 8, 0, 1⟩
      ⟨2021, 1, 2, 8, 0, 0⟩ ⟨2021, 1, 2, 8, 0, 1⟩
      9 (by decide) (by decide)).2⟩

/-- Claim C6: `create_ics_file` writes to and returns a filename equal to
the event name with every space replaced by an underscore followed by the
extension .ics; the event name Meeting with Team yields the filename
Meeting_with_Team.ics, and any pre-existing file of that name is silently
overwritten with the rendered content. -/
theorem ics_filename_derivation
    (userEmail : String) (e : IcsEvent) (n1 n2 : DateTime) (fs : Fs) :
    (createIcsFile userEmail e n1 n2 fs).1 = replaceSpaces e.eventName ++ ".ics"
    ∧ (createIcsFile userEmail e n1 n2 fs).2 (createIcsFile userEmail e n1 n2 fs).1
        = some (icsContent userEmail e n1 n2)
    ∧ (e.eventName = "Meeting with Team" →
        (createIcsFile userEmail e n1 n2 fs).1 = "Meeting_with_Team.ics") := by
  refine ⟨rfl, ?_, ?_⟩
  · simp [createIcsFile, writeFile]
  · intro h
    simp only [createIcsFile, h]
    decide

/-- Witness for C6 at the spec example: the event named Meeting with Team
is written to Meeting_with_Team.ics, overwriting a file that already held
other content there. -/
theorem ics_filename_derivation_witness :
    (createIcsFile "org@example.com"
        ⟨"Meeting with Team", ⟨2021, 1, 2, 9, 0, 0⟩, ⟨2021, 1, 2, 10, 0, 0⟩,
          "Discussing project updates.", "Office", "a@example.com"⟩
        ⟨2021, 1, 1, 8, 0, 0⟩ ⟨2021, 1, 1, 8, 0, 0⟩
        (fun n => if n = "Meeting_with_Team.ics" then some "stale content" else none)).1
      = "Meeting_with_Team.ics"
    ∧ (createIcsFile "org@example.com"
        ⟨"Meeting with Team", ⟨2021, 1, 2, 9, 0, 0⟩, ⟨2021, 1, 2, 10, 0, 0⟩,
          "Discussing project updates.", "Office", "a@example.com"⟩
        ⟨2021, 1, 1, 8, 0, 0⟩ ⟨2021, 1, 1, 8, 0, 0⟩
        (fun n => if n = "Meeting_with_Team.ics" then some "stale content" else none)).2
          "Meeting_with_Team.ics"
      = some (icsContent "org@example.com"
          ⟨"Meeting with Team", ⟨2021, 1, 2, 9, 0, 0⟩, ⟨2021, 1, 2, 10, 0, 0⟩,
            "Discussing project updates.", "Office", "a@example.com"⟩
          ⟨2021, 1, 1, 8, 0, 0⟩ ⟨2021, 1, 1, 8, 0, 0⟩) := by
  have h := ics_filename_derivation "org@example.com"
    ⟨"Meeting with Team", ⟨2021, 1, 2, 9, 0, 0⟩, ⟨2021, 1, 2, 10, 0, 0⟩,
      "Discussing project updates.", "Office", "a@example.com"⟩
    ⟨2021, 1, 1, 8, 0, 0⟩ ⟨2021, 1, 1, 8, 0, 0⟩
    (fun n => if n = "Meeting_with_Team.ics" then some "stale content" else none)
  refine ⟨h.2.2 rfl, ?_⟩
  have h2 := h.2.1
  rwa [h.2.2 rfl] at h2

/-- Counterexample to claim C7 as stated: the DTSTAMP value is rendered
with format `%Y%m%dT%H%M%SZ`, whose trailing literal Z is the UTC
designator of the calendar date-time grammar — a timezone qualifier — even
though the serialized reading comes from the local clock. At noon on
2021-01-01 the DTSTAMP line carries the suffix Z, which is neither a digit
nor the date-time separator T. -/
theorem timestamp_no_timezone_counterexample :
    (icsContentLines "org@example.com"
        ⟨"E", ⟨2021, 1, 2, 9, 0, 0⟩, ⟨2021, 1, 2, 10, 0, 0⟩, "D", "L", "a@b"⟩
        ⟨2021, 1, 1, 12, 0, 0⟩ ⟨2021, 1, 1, 12, 0, 0⟩).getD 6 ""
      = "DTSTAMP:20210101T120000Z"
    ∧ (fmtTimestampZ ⟨2021, 1, 1, 12, 0, 0⟩).data.getLast? = some 'Z'
    ∧ ('Z'.isDigit = false ∧ 'Z' ≠ 'T') :=
  ⟨by decide, by decide, by decide⟩

theorem digitChar_mod_isDigit (n : Nat) : (Nat.digitChar (n % 10)).isDigit = true := by
  have h : n % 10 < 10 := Nat.mod_lt _ (by norm_num)
  set k := n % 10 with hk
  interval_cases k <;> decide

/-- Claim C7 amended: the DTSTART and DTEND values (and the UID reading)
are rendered with second precision and no timezone qualifier — fifteen
characters, every one a decimal digit or the separator T, ending in the
two seconds digits — while the DTSTAMP value is that same rendering
followed by a literal Z UTC designator. -/
theorem timestamps_second_precision
    (userEmail : String) (e : IcsEvent) (n1 n2 : DateTime) (d : DateTime) :
    (fmtTimestampBasic d).length = 15
    ∧ (fmtTimestampBasic d).data.drop 13 = pad2 d.second
    ∧ (∀ c ∈ (fmtTimestampBasic d).data, c.isDigit = true ∨ c = 'T')
    ∧ fmtTimestampZ d = fmtTimestampBasic d ++ "Z"
    ∧ (icsContentLines userEmail e n1 n2).getD 7 ""
        = "DTSTART:" ++ fmtTimestampBasic e.startTime
    ∧ (icsContentLines userEmail e n1 n2).getD 8 ""
        = "DTEND:" ++ fmtTimestampBasic e.endTime
    ∧ (icsContentLines userEmail e n1 n2).getD 6 ""
        = "DTSTAMP:" ++ fmtTimestampZ n2 := by
  refine ⟨rfl, rfl, ?_, rfl, rfl, rfl, rfl⟩
  intro c hc
  simp only [fmtTimestampBasic, pad4, pad2, String.mk, List.cons_append,
    List.nil_append, List.mem_cons, List.mem_singleton] at hc
  rcases hc with h | h | h | h | h | h | h | h | h | h | h | h | h | h | h | h
  all_goals first
    | (left; rw [h]; exact digitChar_mod_isDigit _)
    | (right; exact h)
    | (cases h)

/-- Witness for amended C7: the character at a concrete position of a
concrete rendering is a digit, obtained from the bounded quantifier of the
theorem. -/
theorem timestamps_second_precision_witness :
    '2' ∈ (fmtTimestampBasic ⟨2021, 1, 1, 12, 0, 0⟩).data
    ∧ ('2'.isDigit = true ∨ '2' = 'T') :=
  ⟨by decide,
    (timestamps_second_precision "org@example.com"
      ⟨"E", ⟨2021, 1, 2, 9, 0, 0⟩, ⟨2021, 1, 2, 10, 0, 0⟩, "D", "L", "a@b"⟩
      ⟨2021, 1, 1, 12, 0, 0⟩ ⟨2021, 1, 1, 12, 0, 0⟩
      ⟨2021, 1, 1, 12, 0, 0⟩).2.2.1 '2' (by decide)⟩

/-! ## Mail sender (C8) -/

/-- A MIME message object: a multipart container with headers and
children, a text part, or a generic MIMEBase part with content-type
parameters, added headers and a payload. -/
inductive MimePart : Type where
  | multipart (subtype : String) (headers : List (String × String)) (parts : List MimePart)
  | text (subtype : String) (body : String)
  | base (maintype subtype : String) (params : List (String × String))
      (headers : List (String × String)) (payload : String)
deriving Repr

mutual
/-- The number of MIME part objects in the tree, containers included. -/
def MimePart.countParts : MimePart → Nat
  | .multipart _ _ ps => 1 + countPartsList ps
  | .text _ _ => 1
  | .base _ _ _ _ _ => 1

def countPartsList : List MimePart → Nat
  | [] => 0
  | p :: ps => p.countParts + countPartsList ps
end

def MimePart.payload : MimePart → String
  | .base _ _ _ _ pl => pl
  | _ => ""

def MimePart.headers : MimePart → List (String × String)
  | .multipart _ hs _ => hs
  | .base _ _ _ hs _ => hs
  | .text _ _ => []

/-- The base64 alphabet character for a 6-bit value. -/
def b64Char (n : Nat) : Char :=
  "ABCDEFGHIJKLMNOPQRSTUVWXYZabcdefghijklmnopqrstuvwxyz0123456789+/".data.getD n '='

/-- Standard base64 of a byte sequence, three bytes to four characters,
with trailing = padding. -/
def encodeBase64 : List Nat → List Char
  | [] => []
  | [a] => [b64Char (a / 4), b64Char (a % 4 * 16), '=', '=']
  | [a, b] => [b64Char (a / 4), b64Char (a % 4 * 16 + b / 16), b64Char (b % 16 * 4), '=']
  | a :: b :: c :: rest =>
      b64Char (a / 4) :: b64Char (a % 4 * 16 + b / 16)
        :: b64Char (b % 16 * 4 + c / 64) :: b64Char (c % 64) :: encodeBase64 rest

/-- Split a character list into runs of at most 76 characters. -/
def chunk76 (l : List Char) : List (List Char) :=
  if _h : l = [] then []
  else l.take 76 :: chunk76 (l.drop 76)
termination_by l.length
decreasing_by
  simp only [List.length_drop]
  have : 0 < l.length := List.length_pos.mpr _h
  omega

/-- `email.encoders.encode_base64` (via `base64.encodebytes`): base64 text
broken into newline-terminated lines of at most 76 characters. -/
def encodeBase64MIME (bytes : List Nat) : String :=
  String.join ((chunk76 (encodeBase64 bytes)).map (fun l => String.mk l ++ "\n"))

/-- The file system for binary reads in `send_email`: file names to byte
sequences. -/
def ByteFs : Type := String → Option (List Nat)

/-- `os.path.basename`: the suffix after the last slash — scanning left to
right, a slash resets the accumulated component. -/
def basename (p : String) : String :=
  String.mk (p.data.foldl (fun acc c => if c = '/' then [] else acc ++ [c]) [])

/-- The attachment part built by `MailHandler.send_email`
(src/MailHandler.py lines 190-207): a text/calendar MIMEBase with method
and name parameters, base64 payload, and the attachment disposition and
calendar content-class headers. -/
def attachmentPart (path : String) (bytes : List Nat) : MimePart :=
  MimePart.base "text" "calendar"
    [("method", "REQUEST"), ("name", basename path)]
    [("Content-Disposition", "attachment; filename=" ++ basename path),
     ("Content-class", "urn:content-classes:calendarmessage")]
    (encodeBase64MIME bytes)

/-- The message built by `MailHandler.send_email`
(src/MailHandler.py lines 179-207): a mixed container holding an
alternative container with one plain-text part, plus, when a non-empty
attachment path is given (Python truthiness skips the empty string), the
attachment part read from the file system; a missing file raises. -/
def sendEmailBuild (userEmail toEmail subject body : String)
    (attachmentPath : Option String) (fs : ByteFs) : Except String MimePart :=
  let hdrs := [("From", userEmail), ("To", toEmail), ("Subject", subject)]
  let msgAlt := MimePart.multipart "alternative" [] [MimePart.text "plain" body]
  match attachmentPath with
  | some path =>
    if path = "" then
      Except.ok (MimePart.multipart "mixed" hdrs [msgAlt])
    else
      match fs path with
      | none => Except.error ("No such file or directory: " ++ path)
      | some bytes =>
          Except.ok (MimePart.multipart "mixed" hdrs [msgAlt, attachmentPart path bytes])
  | none => Except.ok (MimePart.multipart "mixed" hdrs [msgAlt])

/-- Claim C8: with no attachment path `send_email` builds a message of at
least two parts (in fact three: the mixed container, the alternative
container, and the plain-text body part); with an attachment path it
builds exactly one additional part, whose payload is the base64 encoding
of the attachment file bytes and whose headers carry the calendar-request
attachment disposition and the content-class value. -/
theorem send_email_part_structure
    (u t s b : String) (path : String) (bytes : List Nat) (fs : ByteFs)
    (hpath : path ≠ "") (hfs : fs path = some bytes) :
    (∃ m, sendEmailBuild u t s b none fs = Except.ok m
       ∧ m.countParts = 3 ∧ 2 ≤ m.countParts)
    ∧ (∃ m m2, sendEmailBuild u t s b none fs = Except.ok m
         ∧ sendEmailBuild u t s b (some path) fs = Except.ok m2
         ∧ m2.countParts = m.countParts + 1)
    ∧ sendEmailBuild u t s b (some path) fs
        = Except.ok (MimePart.multipart "mixed"
            [("From", u), ("To", t), ("Subject", s)]
            [MimePart.multipart "alternative" [] [MimePart.text "plain" b],
             attachmentPart path bytes])
    ∧ (attachmentPart path bytes).payload = encodeBase64MIME bytes
    ∧ ("Content-Disposition", "attachment; filename=" ++ basename path)
        ∈ (attachmentPart path bytes).headers
    ∧ ("Content-class", "urn:content-classes:calendarmessage")
        ∈ (attachmentPart path bytes).headers := by
  refine ⟨⟨MimePart.multipart "mixed" [("From", u), ("To", t), ("Subject", s)]
        [MimePart.multipart "alternative" [] [MimePart.text "plain" b]],
      rfl, rfl, ?_⟩,
    ⟨MimePart.multipart "mixed" [("From", u), ("To", t), ("Subject", s)]
        [MimePart.multipart "alternative" [] [MimePart.text "plain" b]],
      MimePart.multipart "mixed" [("From", u), ("To", t), ("Subject", s)]
        [MimePart.multipart "alternative" [] [MimePart.text "plain" b],
         attachmentPart path bytes],
      rfl, ?_, rfl⟩, ?_, rfl, ?_, ?_⟩
  · norm_num [MimePart.countParts, countPartsList]
  · simp [sendEmailBuild, hpath, hfs]
  · simp [sendEmailBuild, hpath, hfs]
  · simp [attachmentPart, MimePart.headers]
  · simp [attachmentPart, MimePart.headers]

/-- Witness for C8 at a concrete attachment file holding three bytes. -/
theorem send_email_part_structure_witness :
    ("test.ics" : String) ≠ ""
    ∧ ((fun p => if p = "test.ics" then some [66, 69, 71] else none) : ByteFs)
        "test.ics" = some [66, 69, 71]
    ∧ (∃ m m2,
        sendEmailBuild "me@example.com" "you@example.com" "Invite" "See attached."
          none (fun p => if p = "test.ics" then some [66, 69, 71] else none)
          = Except.ok m
        ∧ sendEmailBuild "me@example.com" "you@example.com" "Invite" "See attached."
            (some "test.ics") (fun p => if p = "test.ics" then some [66, 69, 71] else none)
          = Except.ok m2
        ∧ m2.countParts = m.countParts + 1) :=
  ⟨by decide, rfl,
    (send_email_part_structure "me@example.com" "you@example.com" "Invite"
      "See attached." "test.ics" [66, 69, 71]
      (fun p => if p = "test.ics" then some [66, 69, 71] else none)
      (by decide) rfl).2.1⟩

/-! ## The module-level script app.py (C9) -/

/-- A stored inbox message as the two scans see it: the raw RFC822 text a
fetch returns, and the structure `email.message_from_bytes` parses out of
it. -/
structure Mail where
  raw : String
  msg : Msg

/-- Python list slice l[-n:]: the last n elements; when n = 0 the slice
l[0:] is the whole list, likewise when n exceeds the length. -/
def takeLastSlice {α : Type} (n : Nat) (l : List α) : List α :=
  if n = 0 then l else l.drop (l.length - n)

/-- `fetch_inbox_emails` in src/app.py (lines 49-74): select the inbox,
search all ids, slice the last num_emails ids, fetch each and return its
decoded raw text. No content-type classification is applied. -/
def fetchInboxEmails (mailbox : List Mail) (numEmails : Nat) : List String :=
  (takeLastSlice numEmails mailbox).map Mail.raw

/-- The lines of the f-string template of `create_ics_file` in src/app.py
(lines 106-118): unlike the MailHandler template, there is no METHOD, no
ORGANIZER and no ATTENDEE line, and no attendee parameter exists. -/
def appIcsContentLines (eventName : String) (startTime endTime : DateTime)
    (description location : String) (nowUid nowStamp : DateTime) : List String :=
  [ "BEGIN:VCALENDAR",
    "VERSION:2.0",
    "PRODID:-//Your Organization//Your Product//EN",
    "BEGIN:VEVENT",
    "UID:" ++ fmtTimestampBasic nowUid ++ "@yourdomain.com",
    "DTSTAMP:" ++ fmtTimestampZ nowStamp,
    "DTSTART:" ++ fmtTimestampBasic startTime,
    "DTEND:" ++ fmtTimestampBasic endTime,
    "SUMMARY:" ++ eventName,
    "DESCRIPTION:" ++ description,
    "LOCATION:" ++ location,
    "END:VEVENT",
    "END:VCALENDAR" ]

/-- The attachment part built by `send_email` in src/app.py (lines
144-150): an application/octet-stream MIMEBase with no content-type
parameters, base64 payload, the attachment disposition header, and no
content-class header. -/
def appAttachmentPart (path : String) (bytes : List Nat) : MimePart :=
  MimePart.base "application" "octet-stream" []
    [("Content-Disposition", "attachment; filename=" ++ basename path)]
    (encodeBase64MIME bytes)

/-- The message built by `send_email` in src/app.py (lines 127-150): a
mixed container (the MIMEMultipart default) holding the plain-text part
directly — no alternative container — plus the attachment part when a
non-empty path is given. -/
def appSendEmailBuild (userEmail toEmail subject body : String)
    (attachmentPath : Option String) (fs : ByteFs) : Except String MimePart :=
  let hdrs := [("From", userEmail), ("To", toEmail), ("Subject", subject)]
  let textPart := MimePart.text "plain" body
  match attachmentPath with
  | some path =>
    if path = "" then
      Except.ok (MimePart.multipart "mixed" hdrs [textPart])
    else
      match fs path with
      | none => Except.error ("No such file or directory: " ++ path)
      | some bytes =>
          Except.ok (MimePart.multipart "mixed" hdrs
            [textPart, appAttachmentPart path bytes])
  | none => Except.ok (MimePart.multipart "mixed" hdrs [textPart])

theorem filter_length_lt {α : Type} (p : α → Bool) (l : List α) (x : α)
    (hx : x ∈ l) (hpx : p x = false) : (l.filter p).length < l.length := by
  induction l with
  | nil => cases hx
  | cons a tl ih =>
    rcases hx with _ | ⟨_, hx⟩
    · rw [List.filter_cons, hpx]
      exact Nat.lt_succ_of_le (List.length_filter_le p tl)
    · rw [List.filter_cons]
      cases hpa : p a
      · exact Nat.lt_succ_of_le (Nat.le_of_lt (ih hx))
      · simpa using Nat.succ_lt_succ (ih hx)

/-- Counterexample to claim C9 as stated: on a mailbox holding a single
plain-text message, the inbox-scan step of app.py returns the raw message
text while `MailHandler.fetch_calendar_responses` returns the empty list —
the two scans do not return the same results. -/
theorem app_workflow_equivalent_counterexample :
    fetchInboxEmails [⟨"Subject: S\n\nhello", Msg.node "text/plain" "S" []⟩] 10
      ≠ fetchCalendarResponses
          ([⟨"Subject: S\n\nhello", Msg.node "text/plain" "S" []⟩].map Mail.msg) := by
  decide

/-- Claim C9 amended: app.py re-expresses the same linear workflow shape
with module-level functions and adds no capability, but it is not
behaviorally equivalent to MailHandler. Its inbox scan examines only the
last ten messages, applies no calendar classification and returns raw
message text, so on any mailbox of at most ten messages containing a
message with no calendar content the two scans return different lists; its
invite builder renders thirteen template lines against MailHandler
sixteen (no METHOD, ORGANIZER or ATTENDEE lines); and its mail sender
builds one part fewer (no alternative container). -/
theorem app_workflow_not_equivalent
    (mailbox : List Mail) (m : Mail) (hm : m ∈ mailbox)
    (hq : qualifies m.msg = false) (hlen : mailbox.length ≤ 10)
    (eventName : String) (st et : DateTime) (de lo : String)
    (u2 : String) (e : IcsEvent) (n1 n2 : DateTime)
    (u t s b : String) (fs : ByteFs) :
    fetchInboxEmails mailbox 10 ≠ fetchCalendarResponses (mailbox.map Mail.msg)
    ∧ (appIcsContentLines eventName st et de lo n1 n2).length = 13
    ∧ (icsContentLines u2 e n1 n2).length = 16
    ∧ (∃ ma mh, appSendEmailBuild u t s b none fs = Except.ok ma
         ∧ sendEmailBuild u t s b none fs = Except.ok mh
         ∧ ma.countParts = 2 ∧ mh.countParts = 3) := by
  refine ⟨?_, rfl, rfl, ⟨_, _, rfl, rfl, rfl, rfl⟩⟩
  intro heq
  have hlhs : (fetchInboxEmails mailbox 10).length = mailbox.length := by
    simp only [fetchInboxEmails, takeLastSlice]
    have h10 : (10 : Nat) ≠ 0 := by decide
    rw [if_neg h10]
    have : mailbox.length - 10 = 0 := Nat.sub_eq_zero_of_le hlen
    rw [this, List.drop_zero, List.length_map]
  have hrhs : (fetchCalendarResponses (mailbox.map Mail.msg)).length
      < mailbox.length := by
    rw [fetchCalendarResponses_eq_filter, List.length_map]
    have hmem : m.msg ∈ mailbox.map Mail.msg := List.mem_map_of_mem Mail.msg hm
    have := filter_length_lt qualifies (mailbox.map Mail.msg) m.msg hmem hq
    simpa using this
  rw [heq] at hlhs
  omega

/-- Witness for amended C9 at a one-message mailbox with no calendar
content anywhere. -/
theorem app_workflow_not_equivalent_witness :
    qualifies (Mail.mk "Subject: S\n\nhello" (Msg.node "text/plain" "S" [])).msg = false
    ∧ fetchInboxEmails [⟨"Subject: S\n\nhello", Msg.node "text/plain" "S" []⟩] 10
        ≠ fetchCalendarResponses
            ([⟨"Subject: S\n\nhello", Msg.node "text/plain" "S" []⟩].map Mail.msg) :=
  ⟨by decide,
    (app_workflow_not_equivalent
      [⟨"Subject: S\n\nhello", Msg.node "text/plain" "S" []⟩]
      ⟨"Subject: S\n\nhello", Msg.node "text/plain" "S" []⟩
      (List.Mem.head _) (by decide) (by decide)
      "Meeting with Team" ⟨2021, 1, 2, 9, 0, 0⟩ ⟨2021, 1, 2, 10, 0, 0⟩
      "Discussing project updates." "Office"
      "org@example.com"
      ⟨"Meeting with Team", ⟨2021, 1, 2, 9, 0, 0⟩, ⟨2021, 1, 2, 10, 0, 0⟩,
        "Discussing project updates.", "Office", "a@example.com"⟩
      ⟨2021, 1, 1, 8, 0, 0⟩ ⟨2021, 1, 1, 8, 0, 0⟩
      "me@example.com" "you@example.com" "Invite" "Body"
      (fun _ => none)).1⟩

end ICS
